import Mathlib

/-!
Verification development for the asynchronous resource-loading and frame-resource-caching
core of the nIce Game rendering engine (Rust crate under src/).

The Rust code is shallowly embedded: pure control flow becomes Lean functions, allocation
identity (Arc pointer identity) becomes a natural-number id drawn from an explicit fresh
counter, weak references become an id paired with a liveness predicate at upgrade time,
and the futures-0.2 oneshot channel that backs every worker-pool task becomes an explicit
channel-state type.  Stateful per-frame code (MeshBatch::commands, the DiskCpuFuture
state machine) becomes explicit state-passing functions or inductively defined step
relations.
-/

namespace NiceGame

/-! ### Worker-pool sizing (src/cpu_pool.rs lines 5-8)

`lazy_static!` creates two process-wide pools:
`CPU_POOL = CpuPool::new(min(1, num_cpus::get() - 1))` and `FS_POOL = CpuPool::new(1)`.
`num_cpus::get()` is always at least 1, so the Rust `usize` subtraction agrees with
truncated Nat subtraction. -/

/-- Thread count the process-wide CPU pool is created with, from src/cpu_pool.rs line 6:
`CpuPool::new(min(1, num_cpus::get() - 1))`. -/
def cpuPoolThreadCount (numCpus : Nat) : Nat := min 1 (numCpus - 1)

/-- Thread count the process-wide FS (disk) pool is created with, from src/cpu_pool.rs
line 7: `CpuPool::new(1)`. -/
def fsPoolThreadCount : Nat := 1

/-- Modelled from the spec: section 5 sizes the CPU pool to `max(1, core_count - 1)`.
This definition follows the spec words, to be compared against `cpuPoolThreadCount`,
which follows the source. -/
def specCpuPoolThreadCount (numCpus : Nat) : Nat := max 1 (numCpus - 1)

/-! ### The futures-0.2 oneshot channel

Every `CpuFuture` (src/cpu_pool.rs lines 69-86) wraps a `futures::channel::oneshot::Receiver`.
The channel semantics are modelled from the futures 0.2 library (an external dependency of
the crate): a receiver poll on a channel whose value was already delivered, or whose sender
was dropped without sending, reports `Canceled`; the value itself is moved out exactly once. -/

/-- State of a oneshot channel carrying values of type `α`. -/
inductive OneshotState (α : Type) : Type
  /-- Sender alive, nothing sent yet. -/
  | waiting : OneshotState α
  /-- A value was sent and not yet received. -/
  | sent : α → OneshotState α
  /-- The value was already moved out by a receiver poll. -/
  | taken : OneshotState α
  /-- The sender was dropped without sending. -/
  | senderDropped : OneshotState α
  deriving DecidableEq

/-- Result of polling a oneshot receiver. -/
inductive RecvResult (α : Type) : Type
  | pending : RecvResult α
  | ready : α → RecvResult α
  | canceled : RecvResult α
  deriving DecidableEq

/-- Poll of a oneshot receiver: delivers the sent value exactly once; reports `canceled`
once the value is gone or the sender was dropped without sending. -/
def oneshotRecv {α : Type} : OneshotState α → RecvResult α × OneshotState α
  | .waiting => (.pending, .waiting)
  | .sent v => (.ready v, .taken)
  | .taken => (.canceled, .taken)
  | .senderDropped => (.canceled, .senderDropped)

/-- Outcome of one `poll` call of a Rust future with item `τ` and error `ε`
(futures 0.2 signature `poll(&mut self, cx) -> Poll<Item, Error>` together with the
possibility that the call panics). -/
inductive Poll (τ ε : Type) : Type
  | pending : Poll τ ε
  | ready : τ → Poll τ ε
  | err : ε → Poll τ ε
  /-- The poll call panicked (an `unreachable!()` or `panic!` was hit). -/
  | panicked : Poll τ ε
  deriving DecidableEq

/-- Embedding of `CpuFuture::poll` (src/cpu_pool.rs lines 76-85): poll the oneshot
receiver; `Ready(Ok v)` resolves, `Ready(Err e)` errors, `Pending` stays pending, and the
receiver error case is `Err(_) => unreachable!()`, i.e. a panic. -/
def CpuFuture.poll {τ ε : Type} (recv : OneshotState (Except ε τ)) :
    Poll τ ε × OneshotState (Except ε τ) :=
  match oneshotRecv recv with
  | (.ready (Except.ok v), s) => (.ready v, s)
  | (.ready (Except.error e), s) => (.err e, s)
  | (.pending, s) => (.pending, s)
  | (.canceled, s) => (.panicked, s)

/-! ### The two-stage disk-then-cpu pipeline (src/cpu_pool.rs lines 26-42 and 88-139)

`spawn_fs_then_cpu(func_fs, func_cpu)` dispatches onto the FS pool the closure
`move |cx| { let fs_result = func_fs(cx)?; Ok(spawn_cpu(move |cx| func_cpu(cx, fs_result))) }`
and wraps the resulting outer `CpuFuture` in a `DiskCpuFuture` starting in state
`LoadingDisk`.  In Rust the `LoadingDisk` variant owns the outer future (whose `Ok`
payload is the inner `CpuFuture`) and `LoadingCpu` owns the inner future; since one
chained task has exactly one inner channel, the embedding tracks both channel states next
to a state tag and reduces the outer `Ok` payload to `Unit`. -/

/-- Error type of a chained task (src/cpu_pool.rs lines 130-139), with the io error type
`ι` and the cpu-stage error type `ε` as parameters. -/
inductive DiskCpuError (ι ε : Type) : Type
  | diskError : ι → DiskCpuError ι ε
  | cpuError : ε → DiskCpuError ι ε
  deriving DecidableEq

/-- Which `DiskCpuState` variant the future holds (src/cpu_pool.rs lines 125-128). -/
inductive DiskCpuTag : Type
  | loadingDisk : DiskCpuTag
  | loadingCpu : DiskCpuTag
  deriving DecidableEq

/-- A `DiskCpuFuture` (src/cpu_pool.rs lines 88-95): its state tag plus the states of the
outer (disk-stage) and inner (cpu-stage) oneshot channels. -/
structure DiskCpuFuture (τ ι ε : Type) : Type where
  tag : DiskCpuTag
  outer : OneshotState (Except ι Unit)
  inner : OneshotState (Except ε τ)

/-- Stage-2 arm of `DiskCpuFuture::poll` (src/cpu_pool.rs lines 115-121): poll the inner
cpu future, mapping its error through `DiskCpuError::CpuError`. -/
def DiskCpuFuture.pollLoadingCpu {τ ι ε : Type} (f : DiskCpuFuture τ ι ε) :
    Poll τ (DiskCpuError ι ε) × DiskCpuFuture τ ι ε :=
  match CpuFuture.poll f.inner with
  | (.pending, i) => (.pending, { f with inner := i })
  | (.ready v, i) => (.ready v, { f with inner := i })
  | (.err e, i) => (.err (.cpuError e), { f with inner := i })
  | (.panicked, i) => (.panicked, { f with inner := i })

/-- Embedding of `DiskCpuFuture::poll` (src/cpu_pool.rs lines 100-122).  In `LoadingDisk`,
stage 1 is polled first: `Pending` returns immediately, an io error is converted by `?`
into `DiskError` and returned, and `Ready(subfuture)` swaps the state to `LoadingCpu` and
falls through to polling stage 2.  In `LoadingCpu`, only stage 2 is polled. -/
def DiskCpuFuture.poll {τ ι ε : Type} (f : DiskCpuFuture τ ι ε) :
    Poll τ (DiskCpuError ι ε) × DiskCpuFuture τ ι ε :=
  match f.tag with
  | .loadingDisk =>
    match CpuFuture.poll f.outer with
    | (.pending, o) => (.pending, { f with outer := o })
    | (.err e, o) => (.err (.diskError e), { f with outer := o })
    | (.panicked, o) => (.panicked, { f with outer := o })
    | (.ready _, o) => DiskCpuFuture.pollLoadingCpu { f with tag := .loadingCpu, outer := o }
  | .loadingCpu => DiskCpuFuture.pollLoadingCpu f

/-- Execution state of one `spawn_fs_then_cpu` pipeline, instrumented with the counters
the spec's property P2 asks for: whether the fs-pool closure has run, whether `spawn_cpu`
was called for the cpu closure, and how many times the cpu closure has executed. -/
structure ChainedSystem (τ ι ε : Type) : Type where
  fut : DiskCpuFuture τ ι ε
  fsRan : Bool
  cpuDispatched : Bool
  cpuRan : Nat

/-- The state right after `spawn_fs_then_cpu` returns: both channels fresh, the future in
`LoadingDisk`, nothing run yet. -/
def ChainedSystem.init (τ ι ε : Type) : ChainedSystem τ ι ε :=
  { fut := { tag := .loadingDisk, outer := .waiting, inner := .waiting },
    fsRan := false, cpuDispatched := false, cpuRan := 0 }

/-- Interleaved execution of one `spawn_fs_then_cpu` pipeline.  `diskFn` is the result the
disk-stage closure computes when the fs pool runs it; `cpuFn` is what the cpu-stage
closure computes from the disk result.  `runFsOk` and `runFsErr` execute the fs-pool
closure of src/cpu_pool.rs lines 36-39: on `Ok`, `spawn_cpu` dispatches the cpu closure
and the inner future is sent on the outer channel; on `Err`, the `?` short-circuits and
only the error is sent, the cpu closure is never dispatched.  `runCpu` executes the
dispatched cpu closure on the cpu pool (an `FnOnce`, hence at most once).  `pollFut` is
one consumer poll of the combined future; the consumer may poll at any time. -/
inductive ChainedStep {φ τ ι ε : Type} (diskFn : Except ι φ) (cpuFn : φ → Except ε τ) :
    ChainedSystem τ ι ε → ChainedSystem τ ι ε → Prop
  | runFsOk (s : ChainedSystem τ ι ε) (v : φ) (hv : diskFn = Except.ok v)
      (hrun : s.fsRan = false) :
      ChainedStep diskFn cpuFn s
        { s with fsRan := true, cpuDispatched := true,
                 fut := { s.fut with outer := .sent (Except.ok ()) } }
  | runFsErr (s : ChainedSystem τ ι ε) (e : ι) (he : diskFn = Except.error e)
      (hrun : s.fsRan = false) :
      ChainedStep diskFn cpuFn s
        { s with fsRan := true, fut := { s.fut with outer := .sent (Except.error e) } }
  | runCpu (s : ChainedSystem τ ι ε) (v : φ) (hv : diskFn = Except.ok v)
      (hdisp : s.cpuDispatched = true) (honce : s.cpuRan = 0) :
      ChainedStep diskFn cpuFn s
        { s with cpuRan := s.cpuRan + 1, fut := { s.fut with inner := .sent (cpuFn v) } }
  | pollFut (s : ChainedSystem τ ι ε) :
      ChainedStep diskFn cpuFn s { s with fut := (DiskCpuFuture.poll s.fut).2 }

/-- Reachability of a pipeline state from the freshly spawned state. -/
def ChainedReachable {φ τ ι ε : Type} (diskFn : Except ι φ) (cpuFn : φ → Except ε τ)
    (s : ChainedSystem τ ι ε) : Prop :=
  Relation.ReflTransGen (ChainedStep diskFn cpuFn) (ChainedSystem.init τ ι ε) s

/-! ### GPU-completion polling of a texture load (src/texture.rs lines 90-101 and
src/texture/immutable.rs lines 88-99; two coexisting revisions with the same poll body)

In the `LoadingGpu` state, `TextureFuture::poll` performs
`data.future.wait(Some(Default::default()))` — a zero-duration, non-blocking fence wait —
and classifies its result. -/

/-- The error of a vulkano fence/flush wait (`vulkano::sync::FlushError`), by variant. -/
inductive FlushError : Type
  | accessError : FlushError
  | oomError : FlushError
  | deviceLost : FlushError
  | timeout : FlushError
  deriving DecidableEq

/-- Outcome of one poll of a `TextureFuture` in the `LoadingGpu` state. -/
inductive GpuPollOutcome : Type
  /-- The wait returned Ok: the future resolves with the finished texture. -/
  | readyResolved : GpuPollOutcome
  /-- Timeout: the waker is woken and the poll returns Pending without blocking. -/
  | pendingWoke : GpuPollOutcome
  /-- Device loss is returned to the poller as the error TextureError::DeviceLost. -/
  | errDeviceLost : GpuPollOutcome
  /-- Any other wait error hits the catch-all panic arm. -/
  | panicked : GpuPollOutcome
  deriving DecidableEq

/-- Embedding of the `LoadingGpu` arm of `TextureFuture::poll` (src/texture.rs lines
90-101): `waitResult` is what the zero-timeout fence wait returned, `none` standing for
`Ok(())`. -/
def TextureFuture.pollLoadingGpu (waitResult : Option FlushError) : GpuPollOutcome :=
  match waitResult with
  | none => .readyResolved
  | some .timeout => .pendingWoke
  | some .deviceLost => .errDeviceLost
  | some _ => .panicked

/-! ### Glyph drawing (src/batch/sprite/font.rs lines 148-206)

`TextSprite::make_commands` walks the laid-out glyph entries.  Each iteration first
settles the entry's position-upload fence future, then checks the glyph texture-upload
fence in `self.futures` (cloned out of the map, so a `continue` leaves the map entry in
place), and only then emits a draw if a static descriptor set exists for the glyph.
Fences are represented by what their zero-duration wait returns this frame. -/

/-- Result of a zero-duration `wait(Some(Default::default()))` on a fence future. -/
inductive FenceWait : Type
  /-- The wait returned Ok. -/
  | signalled : FenceWait
  /-- The wait returned the Timeout error. -/
  | timeout : FenceWait
  /-- The wait returned any other error (the code panics on it). -/
  | failed : FenceWait
  deriving DecidableEq

/-- One entry of `TextSprite::positions` (src/batch/sprite/font.rs lines 141-145):
glyph id, position-buffer allocation id, and the optional pending position-upload
fence. -/
structure GlyphEntry : Type where
  id : Nat
  pos : Nat
  posFuture : Option FenceWait
  deriving DecidableEq

/-- Result of processing one glyph entry of the `make_commands` loop: the (possibly
updated) entry, the updated glyph-upload fence map, the draw command emitted for this
entry — (glyph id, position buffer, static descriptor) — if any, and whether the
iteration panicked. -/
structure GlyphStepResult : Type where
  entry : GlyphEntry
  futures : Nat → Option FenceWait
  draw : Option (Nat × Nat × Nat)
  panicked : Bool

/-- The glyph-upload fence check and draw emission of one loop iteration
(src/batch/sprite/font.rs lines 174-201): a signalled upload fence is removed from the
map and drawing proceeds; Timeout skips the glyph via `continue`, leaving the cloned map
entry in place; any other wait error panics; when no fence is pending, drawing proceeds
directly.  A draw is emitted only if the glyph has a static descriptor set. -/
def TextSprite.processGlyphUpload (futures : Nat → Option FenceWait)
    (staticDescs : Nat → Option Nat) (entry : GlyphEntry) : GlyphStepResult :=
  match futures entry.id with
  | some FenceWait.signalled =>
    { entry := entry, futures := fun j => if j = entry.id then none else futures j,
      draw := (staticDescs entry.id).map (fun d => (entry.id, entry.pos, d)),
      panicked := false }
  | some FenceWait.timeout =>
    { entry := entry, futures := futures, draw := none, panicked := false }
  | some FenceWait.failed =>
    { entry := entry, futures := futures, draw := none, panicked := true }
  | none =>
    { entry := entry, futures := futures,
      draw := (staticDescs entry.id).map (fun d => (entry.id, entry.pos, d)),
      panicked := false }

/-- One full iteration of the `make_commands` loop (src/batch/sprite/font.rs lines
165-202), starting with the position-upload fence handling of lines 166-172: a taken
fence that reports Ok stays taken, Timeout is put back into the entry, any other error
panics; then the glyph-upload check runs. -/
def TextSprite.processGlyph (futures : Nat → Option FenceWait)
    (staticDescs : Nat → Option Nat) (entry : GlyphEntry) : GlyphStepResult :=
  match entry.posFuture with
  | some FenceWait.failed =>
    { entry := entry, futures := futures, draw := none, panicked := true }
  | some FenceWait.timeout => TextSprite.processGlyphUpload futures staticDescs entry
  | some FenceWait.signalled =>
    TextSprite.processGlyphUpload futures staticDescs { entry with posFuture := none }
  | none => TextSprite.processGlyphUpload futures staticDescs entry

/-- The whole `make_commands` loop over the glyph entries, threading the fence map and
collecting the draw commands of this frame; a panic aborts the loop. Returns the updated
entries, the fence map, the draws, and whether a panic occurred. -/
def TextSprite.makeCommands (futures : Nat → Option FenceWait)
    (staticDescs : Nat → Option Nat) :
    List GlyphEntry →
      List GlyphEntry × (Nat → Option FenceWait) × List (Nat × Nat × Nat) × Bool
  | [] => ([], futures, [], false)
  | e :: rest =>
    let r := TextSprite.processGlyph futures staticDescs e
    if r.panicked then ([r.entry], r.futures, r.draw.toList, true)
    else
      let next := TextSprite.makeCommands r.futures staticDescs rest
      (r.entry :: next.1, next.2.1, r.draw.toList ++ next.2.2.1, next.2.2.2)

/-! ### The framebuffer cache (src/lib.rs lines 170-182; lookups in
src/batch/sprite/mod.rs lines 109-140 and src/batch/mesh/mesh_batch.rs lines 98-136)

Arc allocation identity is a natural-number id; `Arc::ptr_eq` is id equality; a weak
reference is the referent id plus a liveness predicate consulted at upgrade time; a newly
constructed framebuffer takes its id from an explicit fresh-allocation counter. -/

/-- An `Arc<ImageViewAccess>` render-target image: allocation identity and dimensions. -/
structure ImageRef : Type where
  id : Nat
  dims : Nat × Nat
  deriving DecidableEq

/-- Upgrade of a weak reference: yields the referent iff the allocation is live. -/
def weakUpgrade (live : Nat → Bool) (w : Nat) : Option Nat :=
  if live w then some w else none

/-- A framebuffer object: its allocation id and the id of the image it was built
against. -/
structure Fb : Type where
  id : Nat
  image : Nat
  deriving DecidableEq

/-- A cache slot (`ImageFramebuffer`, src/lib.rs lines 170-182): a weak image reference
plus the strongly owned framebuffer built against that image. -/
structure ImageFramebuffer : Type where
  image : Nat
  framebuffer : Fb
  deriving DecidableEq

/-- The cached-framebuffer validity check of `SpriteBatch::commands`
(src/batch/sprite/mod.rs lines 109-114) and of `MeshBatch::commands`
(src/batch/mesh/mesh_batch.rs lines 98-103): upgrade the weak image reference, keep the
hit only if the upgraded image is pointer-identical (`Arc::ptr_eq`) to the current target
image, and in that case return the cached framebuffer. -/
def ImageFramebuffer.lookup (live : Nat → Bool) (slot : ImageFramebuffer)
    (targetImage : ImageRef) : Option Fb :=
  match weakUpgrade live slot.image with
  | some oldImage => if targetImage.id = oldImage then some slot.framebuffer else none
  | none => none

/-- The full get-or-build on one cache slot (src/batch/sprite/mod.rs lines 109-140): on a
hit the cached framebuffer is returned and the slot is untouched; on a miss a new
framebuffer is constructed against the current target image (taking the next fresh
allocation id) and stored in the slot with a downgraded reference to that image, evicting
the old entry.  Returns (framebuffer, new slot state, next fresh id, whether a new
framebuffer was constructed). -/
def ImageFramebuffer.getOrBuild (live : Nat → Bool) (slot : ImageFramebuffer)
    (targetImage : ImageRef) (fresh : Nat) : Fb × ImageFramebuffer × Nat × Bool :=
  match ImageFramebuffer.lookup live slot targetImage with
  | some fb => (fb, slot, fresh, false)
  | none =>
    let fb : Fb := { id := fresh, image := targetImage.id }
    (fb, { image := targetImage.id, framebuffer := fb }, fresh + 1, true)

/-! ### Object identity (src/lib.rs lines 148-168) -/

/-- An `ObjectIdRoot` (src/lib.rs lines 157-168): a strongly held `Arc<()>` allocation,
identified by its id. -/
structure ObjectIdRoot : Type where
  val : Nat
  deriving DecidableEq

/-- An `ObjectId` (src/lib.rs lines 148-155): a weak reference to a root allocation. -/
structure ObjectId : Type where
  val : Nat
  deriving DecidableEq

/-- `ObjectIdRoot::make_id` (src/lib.rs lines 165-167): downgrade the root's Arc. -/
def ObjectIdRoot.make_id (r : ObjectIdRoot) : ObjectId := { val := r.val }

/-- `ObjectId::is_child_of` (src/lib.rs lines 152-154): upgrade the weak reference and
compare allocation identity (`Arc::ptr_eq`) with the root; a dead reference is never a
child (`map_or(false, ..)`). -/
def ObjectId.is_child_of (live : Nat → Bool) (i : ObjectId) (root : ObjectIdRoot) : Bool :=
  match weakUpgrade live i.val with
  | some v => v == root.val
  | none => false

/-- Whether the entry assertion of a batch `commands` method panics. -/
inductive CommandsEntry : Type
  | panicked : CommandsEntry
  | proceeded : CommandsEntry
  deriving DecidableEq

/-- The entry assertion shared by `MeshBatch::commands` (src/batch/mesh/mesh_batch.rs
line 94, src/batch/mesh/mod.rs line 73) and `SpriteBatch::commands`
(src/batch/sprite/mod.rs line 107): the body runs only after
`assert!(self.target_id.is_child_of(target.id_root()))` passes; otherwise the call
panics before building any commands. -/
def Batch.commandsAssert (live : Nat → Bool) (targetId : ObjectId)
    (root : ObjectIdRoot) : CommandsEntry :=
  if ObjectId.is_child_of live targetId root then .proceeded else .panicked

/-! ### The deferred G-buffer set with temporal history (src/batch/mesh/mod.rs)

Attachment images, the size uniform buffer and the history descriptor sets are GPU
allocations; attachments and the buffer take their ids from the fresh-allocation counter
in source order.  Descriptor sets are modelled by the allocation ids of the resources
they bind. -/

/-- An `AttachmentImage`: allocation id and dimensions. -/
structure AttachmentImage : Type where
  id : Nat
  dims : Nat × Nat
  deriving DecidableEq

/-- A `PersistentDescriptorSet` for set 0 of the history (composite) pipeline, as built
at src/batch/mesh/mod.rs lines 152-171 and 279-311: the size uniform buffer, the sampled
image read as history, and the three g-buffer input attachments. -/
structure HistoryDesc : Type where
  buffer : Nat
  sampled : Nat
  color : Nat
  normal : Nat
  depth : Nat
  deriving DecidableEq

/-- A `PersistentDescriptorSet` for set 0 of the target pipeline
(src/batch/mesh/mod.rs lines 313-329): the history image it reads. -/
structure TargetDesc : Type where
  image : Nat
  deriving DecidableEq

/-- The `GBuffers` struct (src/batch/mesh/mod.rs lines 348-359).  Pair components stand
for array indices 0 and 1. -/
structure GBuffers : Type where
  size : Nat
  color : AttachmentImage
  normal : AttachmentImage
  depth : AttachmentImage
  history_descs : HistoryDesc × HistoryDesc
  target_descs : TargetDesc × TargetDesc
  history : AttachmentImage × AttachmentImage
  history_index : Bool
  history_initialized : Bool
  deriving DecidableEq

/-- The allocation identities owned by a `GBuffers` set: the size buffer, the three
g-buffer attachments and the two history attachments. -/
def GBuffers.allocIds (gb : GBuffers) : List Nat :=
  [gb.size, gb.color.id, gb.normal.id, gb.depth.id, gb.history.1.id, gb.history.2.id]

/-- All allocation ids a `GBuffers` set mentions: its own allocations plus every id its
descriptor sets reference.  For a set built by `make_gbuffers` these coincide with its
six fresh allocations; the rebuild theorem's freshness hypothesis ranges over this
list. -/
def GBuffers.refIds (gb : GBuffers) : List Nat :=
  gb.allocIds ++
    [gb.history_descs.1.buffer, gb.history_descs.1.sampled, gb.history_descs.1.color,
     gb.history_descs.1.normal, gb.history_descs.1.depth,
     gb.history_descs.2.buffer, gb.history_descs.2.sampled, gb.history_descs.2.color,
     gb.history_descs.2.normal, gb.history_descs.2.depth,
     gb.target_descs.1.image, gb.target_descs.2.image]

/-- `MeshBatch::make_gbuffers` (src/batch/mesh/mod.rs lines 229-345): allocates, in
source order, the color, normal and depth attachments, the two history attachments and
the size uniform buffer, all sized to the target; then builds the two history descriptor
sets — index 0 samples `history[1]`, index 1 samples `history[0]`, both bind the size
buffer and the three g-buffer attachments — and the two target descriptor sets — index i
reads `history[i]`.  `history_index` and `history_initialized` start false.  Returns the
set and the advanced fresh-allocation counter. -/
def MeshBatch.make_gbuffers (dims : Nat × Nat) (fresh : Nat) : GBuffers × Nat :=
  ({ size := fresh + 5,
     color := { id := fresh, dims := dims },
     normal := { id := fresh + 1, dims := dims },
     depth := { id := fresh + 2, dims := dims },
     history_descs :=
       ({ buffer := fresh + 5, sampled := fresh + 4, color := fresh, normal := fresh + 1,
          depth := fresh + 2 },
        { buffer := fresh + 5, sampled := fresh + 3, color := fresh, normal := fresh + 1,
          depth := fresh + 2 }),
     target_descs := ({ image := fresh + 3 }, { image := fresh + 4 }),
     history := ({ id := fresh + 3, dims := dims }, { id := fresh + 4, dims := dims }),
     history_index := false,
     history_initialized := false },
   fresh + 6)

/-- The per-frame bindings the G-buffer slice of `MeshBatch::commands` produces: whether
the set was rebuilt this frame, the pre-toggle history index, the history attachment
bound to the framebuffer (written this frame), the descriptor set bound at set 0 of the
composite (history) subpass, and the target-subpass descriptor set. -/
structure FrameBindings : Type where
  rebuilt : Bool
  historyIndex : Bool
  historyWritten : AttachmentImage
  historyDesc : HistoryDesc
  targetDesc : TargetDesc
  deriving DecidableEq

/-- Lines 100-171 and 195-201 of `MeshBatch::commands`: read `history_index`, toggle the
stored flag, attach `history[history_index]` to the framebuffer (line 115), bind in the
composite subpass the precomputed `history_descs[history_index]` if
`history_initialized`, else a freshly built descriptor sampling the fixed `black_pixel`
placeholder with the size buffer and the g-buffer attachments (lines 152-171), and bind
`target_descs[history_index]` in the target subpass (line 199). -/
def MeshBatch.commandsFrame (blackPixel : Nat) (gb : GBuffers) (fresh : Nat)
    (rebuilt : Bool) : GBuffers × Nat × FrameBindings :=
  ({ gb with history_index := !gb.history_index }, fresh,
   { rebuilt := rebuilt,
     historyIndex := gb.history_index,
     historyWritten := if gb.history_index then gb.history.2 else gb.history.1,
     historyDesc :=
       if gb.history_initialized then
         (if gb.history_index then gb.history_descs.2 else gb.history_descs.1)
       else
         { buffer := gb.size, sampled := blackPixel, color := gb.color.id,
           normal := gb.normal.id, depth := gb.depth.id },
     targetDesc := if gb.history_index then gb.target_descs.2 else gb.target_descs.1 })

/-- The G-buffer handling of `MeshBatch::commands` (src/batch/mesh/mod.rs lines 75-83
plus the frame bindings): if the current target image's dimensions differ from the cached
color attachment's, a whole fresh `GBuffers` set replaces the old one in a single
assignment; otherwise the cached set is kept.  Then this frame's bindings are selected. -/
def MeshBatch.commandsGBuffers (blackPixel : Nat) (gb : GBuffers) (imageDims : Nat × Nat)
    (fresh : Nat) : GBuffers × Nat × FrameBindings :=
  if imageDims ≠ gb.color.dims then
    let gf := MeshBatch.make_gbuffers imageDims fresh
    MeshBatch.commandsFrame blackPixel gf.1 gf.2 true
  else
    MeshBatch.commandsFrame blackPixel gb fresh false

end NiceGame

namespace NiceGame

/-! ### Theorems for C3 and C8 -/

/-- C3: the claim says the CPU pool is created with `max(1, core_count - 1)` threads and
the FS pool with exactly 1.  The source instead computes `min(1, core_count - 1)`: on a
4-core machine the code creates a 1-thread CPU pool where the claim (and the evident
intent of reserving one core) requires 3; the FS pool is indeed 1 thread.  This theorem
evaluates the code at the failing input core_count = 4. -/
theorem cpu_pool_sizing_min_max_divergence :
    cpuPoolThreadCount 4 = 1 ∧ specCpuPoolThreadCount 4 = 3 ∧ fsPoolThreadCount = 1 := by
  decide

/-- C8 counterexample: a `CpuFuture` whose channel holds `Ok 7` resolves with 7 on the
first poll, and the very next poll panics (the oneshot receiver reports cancellation and
`CpuFuture::poll` hits its `unreachable!()` arm) instead of returning the value again. -/
theorem cpuFuture_double_poll_after_ready_panics :
    (CpuFuture.poll (OneshotState.sent (Except.ok 7) : OneshotState (Except Unit Nat))).1
      = Poll.ready 7 ∧
    (CpuFuture.poll
      (CpuFuture.poll (OneshotState.sent (Except.ok 7) : OneshotState (Except Unit Nat))).2).1
      = Poll.panicked := by
  decide

/-- C8 (amended): once a poll of a `CpuFuture` has resolved it — with a value or with an
error — every subsequent poll panics via the `Err(_) => unreachable!()` arm; the result is
never returned a second time. -/
theorem cpuFuture_poll_after_resolution_panics {τ ε : Type}
    (s : OneshotState (Except ε τ))
    (h : (∃ v, (CpuFuture.poll s).1 = Poll.ready v) ∨
         (∃ e, (CpuFuture.poll s).1 = Poll.err e)) :
    (CpuFuture.poll (CpuFuture.poll s).2).1 = Poll.panicked := by
  rcases s with _ | v | _ | _
  · rcases h with ⟨v, hv⟩ | ⟨e, he⟩ <;> simp [CpuFuture.poll, oneshotRecv] at *
  · rcases v with v | v <;> simp [CpuFuture.poll, oneshotRecv]
  · rcases h with ⟨v, hv⟩ | ⟨e, he⟩ <;> simp [CpuFuture.poll, oneshotRecv] at *
  · rcases h with ⟨v, hv⟩ | ⟨e, he⟩ <;> simp [CpuFuture.poll, oneshotRecv] at *

/-- C8 witness: the amended theorem applied to a channel holding the error value `3`. -/
theorem cpuFuture_poll_after_resolution_panics_witness :
    (CpuFuture.poll
      (CpuFuture.poll (OneshotState.sent (Except.error 3) : OneshotState (Except Nat Unit))).2).1
      = Poll.panicked :=
  cpuFuture_poll_after_resolution_panics _ (Or.inr ⟨3, by decide⟩)

/-! ### Theorems for C4 and C5 -/

/-- Invariant of a pipeline whose disk stage fails: the cpu closure is never dispatched
nor run, the future never leaves `LoadingDisk`, the inner channel stays untouched, and
the outer channel only ever carries the disk error. -/
theorem chained_disk_error_invariant {φ τ ι ε : Type} {diskFn : Except ι φ}
    {cpuFn : φ → Except ε τ} (e : ι) (he : diskFn = Except.error e)
    {s : ChainedSystem τ ι ε} (h : ChainedReachable diskFn cpuFn s) :
    s.cpuRan = 0 ∧ s.cpuDispatched = false ∧ s.fut.tag = DiskCpuTag.loadingDisk ∧
    s.fut.inner = OneshotState.waiting ∧
    (s.fut.outer = OneshotState.waiting ∨ s.fut.outer = OneshotState.sent (Except.error e) ∨
      s.fut.outer = OneshotState.taken) := by
  induction h with
  | refl => simp [ChainedSystem.init]
  | tail _ step ih =>
    cases step with
    | runFsOk v hv hrun => simp [he] at hv
    | runFsErr e' he' hrun =>
      rw [he] at he'
      injection he' with hee
      subst hee
      exact ⟨ih.1, ih.2.1, ih.2.2.1, ih.2.2.2.1, Or.inr (Or.inl rfl)⟩
    | runCpu v hv hdisp honce => simp [ih.2.1] at hdisp
    | pollFut =>
      obtain ⟨h1, h2, h3, h4, h5⟩ := ih
      refine ⟨h1, h2, ?_⟩
      rcases h5 with h5 | h5 | h5 <;>
        simp [DiskCpuFuture.poll, DiskCpuFuture.pollLoadingCpu, CpuFuture.poll,
          oneshotRecv, h3, h4, h5]

/-- Invariant of a pipeline whose disk stage succeeds with `v` while the cpu stage fails
with `ce`: the outer channel only ever carries `Ok` and the inner channel only ever
carries the cpu error. -/
theorem chained_cpu_error_invariant {φ τ ι ε : Type} {diskFn : Except ι φ}
    {cpuFn : φ → Except ε τ} (v : φ) (ce : ε) (hv : diskFn = Except.ok v)
    (hce : cpuFn v = Except.error ce)
    {s : ChainedSystem τ ι ε} (h : ChainedReachable diskFn cpuFn s) :
    (s.fut.outer = OneshotState.waiting ∨ s.fut.outer = OneshotState.sent (Except.ok ()) ∨
      s.fut.outer = OneshotState.taken) ∧
    (s.fut.inner = OneshotState.waiting ∨ s.fut.inner = OneshotState.sent (Except.error ce) ∨
      s.fut.inner = OneshotState.taken) := by
  induction h with
  | refl => simp [ChainedSystem.init]
  | tail _ step ih =>
    cases step with
    | runFsOk v' hv' hrun => exact ⟨Or.inr (Or.inl rfl), ih.2⟩
    | runFsErr e' he' hrun => rw [hv] at he'; exact absurd he' (by simp)
    | runCpu v' hv' hdisp honce =>
      rw [hv] at hv'
      injection hv' with hvv
      subst hvv
      exact ⟨ih.1, Or.inr (Or.inl (by rw [hce]))⟩
    | pollFut =>
      rename_i t htr
      obtain ⟨h1, h2⟩ := ih
      cases ht : t.fut.tag <;> rcases h1 with h1 | h1 | h1 <;>
        rcases h2 with h2 | h2 | h2 <;>
        simp [DiskCpuFuture.poll, DiskCpuFuture.pollLoadingCpu, CpuFuture.poll,
          oneshotRecv, ht, h1, h2]

/-- C4: if the disk-stage closure fails, the cpu-stage closure is never dispatched and
runs zero times, and the only error the chained future can resolve with is the
`DiskError` variant wrapping the io error; if instead the cpu-stage closure fails, the
only possible error resolution is the distinct `CpuError` variant, so callers can tell
the stages apart. -/
theorem spawn_fs_then_cpu_error_stages {φ τ ι ε : Type} (diskFn : Except ι φ)
    (cpuFn : φ → Except ε τ) (s : ChainedSystem τ ι ε) :
    (∀ e, diskFn = Except.error e → ChainedReachable diskFn cpuFn s →
      s.cpuRan = 0 ∧ s.cpuDispatched = false ∧
      ∀ x, (DiskCpuFuture.poll s.fut).1 = Poll.err x → x = DiskCpuError.diskError e) ∧
    (∀ v ce, diskFn = Except.ok v → cpuFn v = Except.error ce →
      ChainedReachable diskFn cpuFn s →
      ∀ x, (DiskCpuFuture.poll s.fut).1 = Poll.err x → x = DiskCpuError.cpuError ce) := by
  constructor
  · intro e he hreach
    obtain ⟨h1, h2, h3, h4, h5⟩ := chained_disk_error_invariant e he hreach
    refine ⟨h1, h2, ?_⟩
    rcases h5 with h5 | h5 | h5 <;>
      simp [DiskCpuFuture.poll, DiskCpuFuture.pollLoadingCpu, CpuFuture.poll,
        oneshotRecv, h3, h4, h5]
  · intro v ce hv hce hreach
    obtain ⟨h1, h2⟩ := chained_cpu_error_invariant v ce hv hce hreach
    rcases ht : s.fut.tag with _ | _ <;> rcases h1 with h1 | h1 | h1 <;>
      rcases h2 with h2 | h2 | h2 <;>
      simp [DiskCpuFuture.poll, DiskCpuFuture.pollLoadingCpu, CpuFuture.poll,
        oneshotRecv, ht, h1, h2]

/-- C4 witness: in the pipeline whose disk stage fails with io error `5`, the state
reached by running the fs closure satisfies the claim, and its poll error is exactly
`DiskError 5`. -/
theorem spawn_fs_then_cpu_error_stages_witness :
    ({ fut := { tag := DiskCpuTag.loadingDisk, outer := OneshotState.sent (Except.error 5),
                inner := OneshotState.waiting },
       fsRan := true, cpuDispatched := false, cpuRan := 0 } :
      ChainedSystem Unit Nat Nat).cpuRan = 0 ∧
    ({ fut := { tag := DiskCpuTag.loadingDisk, outer := OneshotState.sent (Except.error 5),
                inner := OneshotState.waiting },
       fsRan := true, cpuDispatched := false, cpuRan := 0 } :
      ChainedSystem Unit Nat Nat).cpuDispatched = false ∧
    (DiskCpuError.diskError 5 : DiskCpuError Nat Nat) = DiskCpuError.diskError 5 := by
  have h :=
    (spawn_fs_then_cpu_error_stages (Except.error 5 : Except Nat Unit)
      (fun _ => (Except.error 9 : Except Nat Unit))
      ({ fut := { tag := DiskCpuTag.loadingDisk, outer := OneshotState.sent (Except.error 5),
                  inner := OneshotState.waiting },
         fsRan := true, cpuDispatched := false, cpuRan := 0 } :
        ChainedSystem Unit Nat Nat)).1
      5 rfl
      (Relation.ReflTransGen.single
        (ChainedStep.runFsErr (ChainedSystem.init Unit Nat Nat) 5 rfl rfl))
  exact ⟨h.1, h.2.1, h.2.2 _ (by decide)⟩

/-- Ordering invariant of a pipeline: the cpu closure can only have been dispatched after
the fs closure ran and returned `Ok`, and can only have run after being dispatched. -/
theorem chained_ordering_invariant {φ τ ι ε : Type} {diskFn : Except ι φ}
    {cpuFn : φ → Except ε τ} {s : ChainedSystem τ ι ε}
    (h : ChainedReachable diskFn cpuFn s) :
    (s.cpuDispatched = true → s.fsRan = true ∧ ∃ v, diskFn = Except.ok v) ∧
    (0 < s.cpuRan → s.cpuDispatched = true) := by
  induction h with
  | refl => simp [ChainedSystem.init]
  | tail _ step ih =>
    cases step with
    | runFsOk v hv hrun => exact ⟨fun _ => ⟨rfl, v, hv⟩, fun _ => rfl⟩
    | runFsErr e he hrun => exact ⟨fun hd => ⟨rfl, (ih.1 hd).2⟩, ih.2⟩
    | runCpu v hv hdisp honce => exact ⟨fun _ => ih.1 hdisp, fun _ => hdisp⟩
    | pollFut => exact ih

/-- C5: the cpu-stage closure never runs before the disk-stage closure has returned a
value (and that value was an `Ok`); `DiskCpuFuture::poll` keeps the state at
`LoadingDisk` and returns `Pending` while stage 1 is pending, transitions to
`LoadingCpu` exactly at the first poll that observes stage 1 resolved, and from
`LoadingCpu` never transitions back, polling only stage 2 and leaving the stage-1
channel untouched. -/
theorem diskCpuFuture_ordering_and_single_transition {φ τ ι ε : Type}
    (diskFn : Except ι φ) (cpuFn : φ → Except ε τ) :
    (∀ s : ChainedSystem τ ι ε, ChainedReachable diskFn cpuFn s → 0 < s.cpuRan →
      s.fsRan = true ∧ ∃ v, diskFn = Except.ok v) ∧
    (∀ f : DiskCpuFuture τ ι ε, f.tag = DiskCpuTag.loadingDisk →
      (CpuFuture.poll f.outer).1 = Poll.pending →
      (DiskCpuFuture.poll f).1 = Poll.pending ∧
      (DiskCpuFuture.poll f).2.tag = DiskCpuTag.loadingDisk) ∧
    (∀ f : DiskCpuFuture τ ι ε, f.tag = DiskCpuTag.loadingDisk →
      (∃ u, (CpuFuture.poll f.outer).1 = Poll.ready u) →
      (DiskCpuFuture.poll f).2.tag = DiskCpuTag.loadingCpu) ∧
    (∀ f : DiskCpuFuture τ ι ε, f.tag = DiskCpuTag.loadingCpu →
      (DiskCpuFuture.poll f).2.tag = DiskCpuTag.loadingCpu ∧
      (DiskCpuFuture.poll f).2.outer = f.outer) := by
  refine ⟨?_, ?_, ?_, ?_⟩
  · intro s hreach hran
    exact (chained_ordering_invariant hreach).1 ((chained_ordering_invariant hreach).2 hran)
  · intro f htag hpend
    rcases hp : CpuFuture.poll f.outer with ⟨p, o⟩
    rw [hp] at hpend
    cases p <;> simp_all [DiskCpuFuture.poll]
  · intro f htag hready
    obtain ⟨u, hu⟩ := hready
    rcases hp : CpuFuture.poll f.outer with ⟨p, o⟩
    rw [hp] at hu
    cases p <;> simp_all [DiskCpuFuture.poll, DiskCpuFuture.pollLoadingCpu]
    rcases hq : CpuFuture.poll f.inner with ⟨q, i⟩
    cases q <;> simp_all
  · intro f htag
    rcases hq : CpuFuture.poll f.inner with ⟨q, i⟩
    cases q <;> simp_all [DiskCpuFuture.poll, DiskCpuFuture.pollLoadingCpu]

/-- C5 witness: the four parts instantiated at a concrete pipeline computing `Ok 2` on
disk and succeeding on cpu: the state after the fs and cpu closures ran, a fresh future,
a future whose stage 1 just resolved, and a future already in `LoadingCpu`. -/
theorem diskCpuFuture_ordering_and_single_transition_witness :
    (({ fut := { tag := DiskCpuTag.loadingDisk, outer := OneshotState.sent (Except.ok ()),
                 inner := OneshotState.sent (Except.ok 2) },
        fsRan := true, cpuDispatched := true, cpuRan := 1 } :
        ChainedSystem Nat Unit Unit).fsRan = true ∧
      ∃ v, (Except.ok 2 : Except Unit Nat) = Except.ok v) ∧
    ((DiskCpuFuture.poll
        ({ tag := DiskCpuTag.loadingDisk, outer := OneshotState.waiting,
           inner := OneshotState.waiting } : DiskCpuFuture Nat Unit Unit)).1 = Poll.pending ∧
      (DiskCpuFuture.poll
        ({ tag := DiskCpuTag.loadingDisk, outer := OneshotState.waiting,
           inner := OneshotState.waiting } : DiskCpuFuture Nat Unit Unit)).2.tag
        = DiskCpuTag.loadingDisk) ∧
    ((DiskCpuFuture.poll
        ({ tag := DiskCpuTag.loadingDisk, outer := OneshotState.sent (Except.ok ()),
           inner := OneshotState.waiting } : DiskCpuFuture Nat Unit Unit)).2.tag
        = DiskCpuTag.loadingCpu) ∧
    ((DiskCpuFuture.poll
        ({ tag := DiskCpuTag.loadingCpu, outer := OneshotState.waiting,
           inner := OneshotState.waiting } : DiskCpuFuture Nat Unit Unit)).2.tag
        = DiskCpuTag.loadingCpu) := by
  have h :=
    diskCpuFuture_ordering_and_single_transition (Except.ok 2 : Except Unit Nat)
      (fun n => (Except.ok n : Except Unit Nat))
  refine ⟨?_, h.2.1 _ rfl (by decide), h.2.2.1 _ rfl ⟨(), by decide⟩, (h.2.2.2 _ rfl).1⟩
  have hcpu : ChainedStep (Except.ok 2 : Except Unit Nat)
      (fun n => (Except.ok n : Except Unit Nat))
      ({ fut := { tag := DiskCpuTag.loadingDisk, outer := OneshotState.sent (Except.ok ()),
                  inner := OneshotState.waiting },
         fsRan := true, cpuDispatched := true, cpuRan := 0 } :
        ChainedSystem Nat Unit Unit)
      ({ fut := { tag := DiskCpuTag.loadingDisk, outer := OneshotState.sent (Except.ok ()),
                  inner := OneshotState.sent (Except.ok 2) },
         fsRan := true, cpuDispatched := true, cpuRan := 1 } :
        ChainedSystem Nat Unit Unit) :=
    ChainedStep.runCpu _ 2 rfl rfl rfl
  exact h.1 _
    (Relation.ReflTransGen.tail
      (Relation.ReflTransGen.single
        (ChainedStep.runFsOk (ChainedSystem.init Nat Unit Unit) 2 rfl rfl))
      hcpu)
    (by decide)

/-! ### Theorems for C6 -/

/-- C6 counterexample: the claim says every wait error other than Timeout is propagated
to the poller as an error; but at the concrete wait result `OomError` the poll hits the
catch-all panic arm, which is not an error returned to the poller (the only
error-propagating outcome is `errDeviceLost`). -/
theorem textureFuture_pollGpu_oom_panics_not_propagated :
    TextureFuture.pollLoadingGpu (some FlushError.oomError) = GpuPollOutcome.panicked ∧
    GpuPollOutcome.panicked ≠ GpuPollOutcome.errDeviceLost ∧
    GpuPollOutcome.panicked ≠ GpuPollOutcome.readyResolved ∧
    GpuPollOutcome.panicked ≠ GpuPollOutcome.pendingWoke := by
  decide

/-- C6 (amended): the poll of a pending GPU completion fence performs a zero-timeout
wait; Ready resolves the future, Timeout wakes the task and returns Pending without
blocking, DeviceLost is propagated to the poller as the terminal error
`TextureError::DeviceLost`, and any other wait error terminates by panicking — in no
case is the wait retried within the same poll. -/
theorem textureFuture_pollGpu_classification :
    TextureFuture.pollLoadingGpu none = GpuPollOutcome.readyResolved ∧
    TextureFuture.pollLoadingGpu (some FlushError.timeout) = GpuPollOutcome.pendingWoke ∧
    TextureFuture.pollLoadingGpu (some FlushError.deviceLost)
      = GpuPollOutcome.errDeviceLost ∧
    TextureFuture.pollLoadingGpu (some FlushError.oomError) = GpuPollOutcome.panicked ∧
    TextureFuture.pollLoadingGpu (some FlushError.accessError) = GpuPollOutcome.panicked := by
  decide

/-! ### Theorems for C9 -/

/-- Invariant of the glyph-upload check: a glyph id whose upload fence reports Timeout
keeps its fence entry and is never the subject of the emitted draw. -/
theorem processGlyphUpload_timeout_retained (futures : Nat → Option FenceWait)
    (staticDescs : Nat → Option Nat) (e : GlyphEntry) (gid : Nat)
    (hf : futures gid = some FenceWait.timeout) :
    (TextSprite.processGlyphUpload futures staticDescs e).futures gid
      = some FenceWait.timeout ∧
    ∀ d, (TextSprite.processGlyphUpload futures staticDescs e).draw = some d →
      d.1 ≠ gid := by
  unfold TextSprite.processGlyphUpload
  by_cases hid : e.id = gid
  · subst hid
    simp [hf]
  · rcases hfe : futures e.id with _ | w
    · rcases hsd : staticDescs e.id with _ | a <;> simp [hfe, hsd, hf, hid]
    · rcases w with _ | _ | _
      · rcases hsd : staticDescs e.id with _ | a <;>
          simp [hfe, hsd, hf, hid, Ne.symm hid]
      · simp [hfe, hf]
      · simp [hfe, hf]

/-- The same invariant for a full loop iteration, including the position-fence
handling. -/
theorem processGlyph_timeout_retained (futures : Nat → Option FenceWait)
    (staticDescs : Nat → Option Nat) (entry : GlyphEntry) (gid : Nat)
    (hf : futures gid = some FenceWait.timeout) :
    (TextSprite.processGlyph futures staticDescs entry).futures gid
      = some FenceWait.timeout ∧
    ∀ d, (TextSprite.processGlyph futures staticDescs entry).draw = some d →
      d.1 ≠ gid := by
  obtain ⟨eid, epos, pf⟩ := entry
  rcases pf with _ | w
  · exact processGlyphUpload_timeout_retained futures staticDescs _ gid hf
  · rcases w with _ | _ | _
    · exact processGlyphUpload_timeout_retained futures staticDescs _ gid hf
    · exact processGlyphUpload_timeout_retained futures staticDescs _ gid hf
    · exact ⟨hf, by simp [TextSprite.processGlyph]⟩

/-- C9: in `TextSprite::make_commands`, every glyph whose GPU-upload fence is not yet
signalled (the zero-duration wait reports Timeout) is skipped for the frame — no draw
command of this frame targets it — while its pending future is retained in the map so a
later frame can draw it once the fence has signalled. -/
theorem textSprite_pending_glyph_skipped_and_retained (staticDescs : Nat → Option Nat)
    (gid : Nat) :
    ∀ (entries : List GlyphEntry) (futures : Nat → Option FenceWait),
      futures gid = some FenceWait.timeout →
      (TextSprite.makeCommands futures staticDescs entries).2.1 gid
        = some FenceWait.timeout ∧
      ∀ d ∈ (TextSprite.makeCommands futures staticDescs entries).2.2.1, d.1 ≠ gid := by
  intro entries
  induction entries with
  | nil =>
    intro futures hf
    exact ⟨hf, by simp [TextSprite.makeCommands]⟩
  | cons e rest ih =>
    intro futures hf
    obtain ⟨hkeep, hdraw⟩ := processGlyph_timeout_retained futures staticDescs e gid hf
    rcases hp : (TextSprite.processGlyph futures staticDescs e).panicked with _ | _
    · obtain ⟨ihkeep, ihdraw⟩ := ih (TextSprite.processGlyph futures staticDescs e).futures hkeep
      refine ⟨?_, ?_⟩
      · simpa [TextSprite.makeCommands, hp] using ihkeep
      · intro d hd
        simp only [TextSprite.makeCommands, hp, Bool.false_eq_true, if_false,
          List.mem_append, Option.mem_toList, Option.mem_def] at hd
        rcases hd with hd | hd
        · exact hdraw d hd
        · exact ihdraw d hd
    · refine ⟨?_, ?_⟩
      · simpa [TextSprite.makeCommands, hp] using hkeep
      · intro d hd
        simp only [TextSprite.makeCommands, hp, if_true, Option.mem_toList,
          Option.mem_def] at hd
        exact hdraw d hd

/-- C9 witness: one entry for glyph 7 with a static descriptor present but the upload
fence timed out: after the loop, the fence map still holds the Timeout entry at 7. -/
theorem textSprite_pending_glyph_skipped_and_retained_witness :
    (TextSprite.makeCommands (fun i => if i = 7 then some FenceWait.timeout else none)
      (fun i => if i = 7 then some 42 else none)
      [{ id := 7, pos := 1, posFuture := none }]).2.1 7 = some FenceWait.timeout :=
  (textSprite_pending_glyph_skipped_and_retained (fun i => if i = 7 then some 42 else none)
    7 [{ id := 7, pos := 1, posFuture := none }]
    (fun i => if i = 7 then some FenceWait.timeout else none) (by decide)).1

/-! ### Theorems for C2 -/

/-- C2: a cache slot whose entry was built against image A: a lookup with a different,
pointer-distinct image B (the dimensions play no role in the check, so they may be
identical) does not return the cached framebuffer — a new framebuffer is constructed
against B and stored in the slot, evicting the old entry; a lookup with the still-live,
pointer-identical image A returns exactly the cached framebuffer object, builds nothing
and leaves the slot untouched. -/
theorem framebufferCache_identity_invalidation (live : Nat → Bool)
    (slot : ImageFramebuffer) (a b : ImageRef) (fresh : Nat) :
    (slot.image = a.id → b.id ≠ a.id → slot.framebuffer.id < fresh →
      (ImageFramebuffer.getOrBuild live slot b fresh).2.2.2 = true ∧
      (ImageFramebuffer.getOrBuild live slot b fresh).1 ≠ slot.framebuffer ∧
      (ImageFramebuffer.getOrBuild live slot b fresh).1.image = b.id ∧
      (ImageFramebuffer.getOrBuild live slot b fresh).2.1
        = { image := b.id,
            framebuffer := (ImageFramebuffer.getOrBuild live slot b fresh).1 }) ∧
    (slot.image = a.id → live a.id = true →
      (ImageFramebuffer.getOrBuild live slot a fresh).1 = slot.framebuffer ∧
      (ImageFramebuffer.getOrBuild live slot a fresh).2.1 = slot ∧
      (ImageFramebuffer.getOrBuild live slot a fresh).2.2.2 = false) := by
  constructor
  · intro hsl hne hlt
    have hlook : ImageFramebuffer.lookup live slot b = none := by
      unfold ImageFramebuffer.lookup weakUpgrade
      cases hl : live slot.image
      · simp
      · simp [hsl, hne]
    unfold ImageFramebuffer.getOrBuild
    rw [hlook]
    refine ⟨rfl, ?_, rfl, rfl⟩
    intro hc
    exact Nat.ne_of_lt hlt (congrArg Fb.id hc).symm
  · intro hsl hlive
    have hlook : ImageFramebuffer.lookup live slot a = some slot.framebuffer := by
      unfold ImageFramebuffer.lookup weakUpgrade
      rw [hsl, hlive]
      simp
    refine ⟨?_, ?_, ?_⟩ <;> simp only [ImageFramebuffer.getOrBuild, hlook]

/-- C2 witness: slot built against image 1 (framebuffer id 10); lookup with image 2 of
identical dimensions builds a new framebuffer, lookup with live image 1 returns the
cached one. -/
theorem framebufferCache_identity_invalidation_witness :
    (ImageFramebuffer.getOrBuild (fun _ => true)
      { image := 1, framebuffer := { id := 10, image := 1 } }
      { id := 2, dims := (800, 600) } 11).2.2.2 = true ∧
    (ImageFramebuffer.getOrBuild (fun _ => true)
      { image := 1, framebuffer := { id := 10, image := 1 } }
      { id := 1, dims := (800, 600) } 11).1 = { id := 10, image := 1 } := by
  have h := framebufferCache_identity_invalidation (fun _ => true)
    { image := 1, framebuffer := { id := 10, image := 1 } }
    { id := 1, dims := (800, 600) } { id := 2, dims := (800, 600) } 11
  exact ⟨(h.1 rfl (by decide) (by decide)).1, (h.2 rfl rfl).1⟩

/-! ### Theorems for C10 -/

/-- C10: the entry assertion of `MeshBatch::commands` and `SpriteBatch::commands` panics
whenever the target's identity root is not the batch's construction root (whether or not
that root is still live), and also when the batch's stored weak id no longer upgrades
because its original root was dropped; with the original live root the assertion
passes. -/
theorem batch_commands_target_identity_assertion (live : Nat → Bool) (i : ObjectId)
    (root : ObjectIdRoot) :
    (i.val ≠ root.val → Batch.commandsAssert live i root = CommandsEntry.panicked) ∧
    (live i.val = false → Batch.commandsAssert live i root = CommandsEntry.panicked) ∧
    (live root.val = true →
      Batch.commandsAssert live (ObjectIdRoot.make_id root) root
        = CommandsEntry.proceeded) := by
  refine ⟨?_, ?_, ?_⟩
  · intro hne
    unfold Batch.commandsAssert ObjectId.is_child_of weakUpgrade
    cases hl : live i.val <;> simp [hl, hne]
  · intro hdead
    unfold Batch.commandsAssert ObjectId.is_child_of weakUpgrade
    simp [hdead]
  · intro hlive
    unfold Batch.commandsAssert ObjectId.is_child_of weakUpgrade ObjectIdRoot.make_id
    simp [hlive]

/-- C10 witness: a foreign root (ids 3 vs 4) panics, a dropped original root (id 4, dead)
panics, and the original live root's own id proceeds. -/
theorem batch_commands_target_identity_assertion_witness :
    Batch.commandsAssert (fun _ => true) { val := 3 } { val := 4 }
      = CommandsEntry.panicked ∧
    Batch.commandsAssert (fun _ => false) { val := 4 } { val := 4 }
      = CommandsEntry.panicked ∧
    Batch.commandsAssert (fun _ => true) (ObjectIdRoot.make_id { val := 4 }) { val := 4 }
      = CommandsEntry.proceeded := by
  have h3 :=
    batch_commands_target_identity_assertion (fun _ => true) { val := 3 } { val := 4 }
  have h4 :=
    batch_commands_target_identity_assertion (fun _ => false) { val := 4 } { val := 4 }
  have h5 :=
    batch_commands_target_identity_assertion (fun _ => true) { val := 99 } { val := 4 }
  exact ⟨h3.1 (by decide), h4.2.1 rfl, h5.2.2 rfl⟩

/-! ### Theorems for C1 and C7 -/

/-- C1 (code bug): `history_initialized` is never set to true anywhere in the code —
the `end_frame()` the spec describes does not exist — so the composite pass binds the
black-pixel placeholder descriptor on every frame, not only before the first frame
completes.  Part 1: a frame either keeps `history_initialized` unchanged or, on a
rebuild, resets it to false — nothing ever sets it.  Part 2, evaluating the failing
input (fresh 64x48 set, placeholder id 99, two frames at unchanged dimensions): the
first frame's read binding samples the placeholder, as the claim's first half states;
but the second frame — after a completed first frame — still samples the placeholder
rather than either history attachment, and the flag is still false, contradicting the
claim's second half. -/
theorem meshBatch_history_read_binding_stays_placeholder :
    (∀ (bp : Nat) (gb : GBuffers) (dims : Nat × Nat) (fresh : Nat),
      (MeshBatch.commandsGBuffers bp gb dims fresh).1.history_initialized
        = (decide (dims = gb.color.dims) && gb.history_initialized)) ∧
    (let g0 := MeshBatch.make_gbuffers (64, 48) 0
     let f1 := MeshBatch.commandsGBuffers 99 g0.1 (64, 48) g0.2
     let f2 := MeshBatch.commandsGBuffers 99 f1.1 (64, 48) f1.2.1
     f1.2.2.historyDesc.sampled = 99 ∧
     f2.2.2.historyDesc.sampled = 99 ∧
     f2.2.2.historyDesc.sampled ≠ f2.1.history.1.id ∧
     f2.2.2.historyDesc.sampled ≠ f2.1.history.2.id ∧
     f2.1.history_initialized = false ∧
     f2.2.2.historyIndex = true) := by
  constructor
  · intro bp gb dims fresh
    by_cases h : dims = gb.color.dims <;>
      simp [MeshBatch.commandsGBuffers, MeshBatch.commandsFrame, MeshBatch.make_gbuffers, h]
  · decide

/-- C7: whenever `MeshBatch::commands` sees target dimensions that differ from the cached
color attachment's, the whole `GBuffers` set is rebuilt in one swap — under the
fresh-allocation-counter hypothesis, no allocation of the new set coincides with any
allocation of the old set, and all four derived descriptor sets differ from the old
ones; when the dimensions match, every member of the set is kept unchanged. -/
theorem meshBatch_gbuffers_rebuild_atomicity (bp : Nat) (gb : GBuffers)
    (dims : Nat × Nat) (fresh : Nat)
    (hfresh : ∀ i ∈ GBuffers.refIds gb, i < fresh) :
    (dims ≠ gb.color.dims →
      (MeshBatch.commandsGBuffers bp gb dims fresh).2.2.rebuilt = true ∧
      (∀ i ∈ GBuffers.allocIds (MeshBatch.commandsGBuffers bp gb dims fresh).1,
        i ∉ GBuffers.allocIds gb) ∧
      (MeshBatch.commandsGBuffers bp gb dims fresh).1.history_descs.1
        ≠ gb.history_descs.1 ∧
      (MeshBatch.commandsGBuffers bp gb dims fresh).1.history_descs.2
        ≠ gb.history_descs.2 ∧
      (MeshBatch.commandsGBuffers bp gb dims fresh).1.target_descs.1
        ≠ gb.target_descs.1 ∧
      (MeshBatch.commandsGBuffers bp gb dims fresh).1.target_descs.2
        ≠ gb.target_descs.2) ∧
    (dims = gb.color.dims →
      (MeshBatch.commandsGBuffers bp gb dims fresh).2.2.rebuilt = false ∧
      (MeshBatch.commandsGBuffers bp gb dims fresh).1.size = gb.size ∧
      (MeshBatch.commandsGBuffers bp gb dims fresh).1.color = gb.color ∧
      (MeshBatch.commandsGBuffers bp gb dims fresh).1.normal = gb.normal ∧
      (MeshBatch.commandsGBuffers bp gb dims fresh).1.depth = gb.depth ∧
      (MeshBatch.commandsGBuffers bp gb dims fresh).1.history = gb.history ∧
      (MeshBatch.commandsGBuffers bp gb dims fresh).1.history_descs = gb.history_descs ∧
      (MeshBatch.commandsGBuffers bp gb dims fresh).1.target_descs = gb.target_descs ∧
      (MeshBatch.commandsGBuffers bp gb dims fresh).1.history_initialized
        = gb.history_initialized) := by
  have hsize : gb.size < fresh := hfresh gb.size (by simp [GBuffers.refIds, GBuffers.allocIds])
  have ht1 : gb.target_descs.1.image < fresh :=
    hfresh gb.target_descs.1.image (by simp [GBuffers.refIds, GBuffers.allocIds])
  have ht2 : gb.target_descs.2.image < fresh :=
    hfresh gb.target_descs.2.image (by simp [GBuffers.refIds, GBuffers.allocIds])
  have hd1 : gb.history_descs.1.buffer < fresh :=
    hfresh gb.history_descs.1.buffer (by simp [GBuffers.refIds, GBuffers.allocIds])
  have hd2 : gb.history_descs.2.buffer < fresh :=
    hfresh gb.history_descs.2.buffer (by simp [GBuffers.refIds, GBuffers.allocIds])
  constructor
  · intro h
    simp only [MeshBatch.commandsGBuffers, if_pos h]
    refine ⟨rfl, ?_, ?_, ?_, ?_, ?_⟩
    · intro i hi hmem
      have hlt := hfresh i (by simp only [GBuffers.refIds, List.mem_append]; exact Or.inl hmem)
      simp only [MeshBatch.commandsFrame, MeshBatch.make_gbuffers, GBuffers.allocIds,
        List.mem_cons, List.not_mem_nil, or_false] at hi
      omega
    · intro hc
      have := congrArg HistoryDesc.buffer hc
      simp only [MeshBatch.commandsFrame, MeshBatch.make_gbuffers] at this
      omega
    · intro hc
      have := congrArg HistoryDesc.buffer hc
      simp only [MeshBatch.commandsFrame, MeshBatch.make_gbuffers] at this
      omega
    · intro hc
      have := congrArg TargetDesc.image hc
      simp only [MeshBatch.commandsFrame, MeshBatch.make_gbuffers] at this
      omega
    · intro hc
      have := congrArg TargetDesc.image hc
      simp only [MeshBatch.commandsFrame, MeshBatch.make_gbuffers] at this
      omega
  · intro h
    simp [MeshBatch.commandsGBuffers, MeshBatch.commandsFrame, h]

/-- C7 witness: a fresh 64x48 set (ids 0-5, counter 6): a 32x32 frame rebuilds — the
claim conclusions hold, in particular new allocation 6 is none of the old ones — and a
64x48 frame keeps every member. -/
theorem meshBatch_gbuffers_rebuild_atomicity_witness :
    ((MeshBatch.commandsGBuffers 99 (MeshBatch.make_gbuffers (64, 48) 0).1
        (32, 32) 6).2.2.rebuilt = true ∧
      6 ∉ GBuffers.allocIds (MeshBatch.make_gbuffers (64, 48) 0).1) ∧
    ((MeshBatch.commandsGBuffers 99 (MeshBatch.make_gbuffers (64, 48) 0).1
        (64, 48) 6).2.2.rebuilt = false ∧
      (MeshBatch.commandsGBuffers 99 (MeshBatch.make_gbuffers (64, 48) 0).1
        (64, 48) 6).1.color = (MeshBatch.make_gbuffers (64, 48) 0).1.color) := by
  have h1 := meshBatch_gbuffers_rebuild_atomicity 99 (MeshBatch.make_gbuffers (64, 48) 0).1
    (32, 32) 6 (by decide)
  have h2 := meshBatch_gbuffers_rebuild_atomicity 99 (MeshBatch.make_gbuffers (64, 48) 0).1
    (64, 48) 6 (by decide)
  refine ⟨⟨(h1.1 (by decide)).1, ?_⟩, (h2.2 rfl).1, (h2.2 rfl).2.2.1⟩
  exact (h1.1 (by decide)).2.1 6 (by decide)

end NiceGame
